import Mathlib

/-!
Shallow embedding of the NSDF writer (`src/python/nsdf/nsdfwriter.py`) and
proofs about its append/dialect engine, source-mapping declaration and
cross-reference linker.

Conventions of the embedding:
* HDF5 groups holding named datasets are association lists
  `List (String × β)`; `create_dataset` on an existing name fails (h5py
  raises when the name already exists), `require_group` keeps an existing
  entry.
* Numeric sample values are `Int`; time values and the sampling step `dt`
  are `ℚ`.  The NaN sentinel of the padded dialect is encoded as `none` in
  cells of type `Option Int`.
* Exceptions are values of `NsdfError`; an operation that mutates shared
  state before raising returns the mutated store together with the error.
-/

namespace Nsdf

/-- Error taxonomy of the writer.  `SourceMismatch` stands for the
`KeyError('members of source_ds must match ...')` raises, `MissingMetadata`
for the `ValueError` raises about `dt`/`unit`/`tunit`, `ShapeMismatch` for
the sampling-times/columns `ValueError`, `Conflict` for h5py's
name-already-exists failure of `create_dataset`, `EmptyInput` for the
`ValueError('idlist must be nonempty')`, `KeyNotFound` for an uncaught
`KeyError`, and `GrowthBound` for h5py's `ValueError` when a resize exceeds
the `maxshape` fixed at creation time. -/
inductive NsdfError where
  | SourceMismatch
  | MissingMetadata
  | ShapeMismatch
  | Conflict
  | EmptyInput
  | KeyNotFound
  | GrowthBound
  deriving DecidableEq, Repr

/-- Lookup in an association list (a group's named members). -/
def lookupA {κ β : Type} [DecidableEq κ] (k : κ) : List (κ × β) → Option β
  | [] => none
  | (k', v) :: rest => if k' = k then some v else lookupA k rest

/-- Set (or insert) a key in an association list. -/
def setA {κ β : Type} [DecidableEq κ] (k : κ) (v : β) : List (κ × β) → List (κ × β)
  | [] => [(k, v)]
  | (k', v') :: rest => if k' = k then (k, v) :: rest else (k', v') :: setA k v rest

/-- `require_group`: keep an existing entry, create `d` otherwise. -/
def requireA {κ β : Type} [DecidableEq κ] (k : κ) (d : β) (l : List (κ × β)) :
    List (κ × β) :=
  match lookupA k l with
  | some _ => l
  | none => setA k d l

/-- Lookup of a dataset two levels deep: population group, then dataset name. -/
def lookup2 {β : Type} (st : List (String × List (String × β))) (pop ds : String) :
    Option β :=
  match lookupA pop st with
  | none => none
  | some g => lookupA ds g

/-- Write a dataset two levels deep. -/
def update2 {β : Type} (st : List (String × List (String × β))) (pop ds : String)
    (v : β) : List (String × List (String × β)) :=
  setA pop (setA ds v ((lookupA pop st).getD [])) st

/-- `match_datasets` (nsdfwriter.py lines 61-68): set equality of the two
source-id collections. -/
def match_datasets (hdfds pydata : List String) : Bool :=
  decide (hdfds.toFinset = pydata.toFinset)

/-! ## Uniform dialect (`add_uniform_data`, lines 456-522) -/

/-- The `nsdf.UniformData` batch object as consumed by `add_uniform_data`:
`name`, `get_sources()` (`srcs`), `get_data` (`getData`), `dt`, `unit`,
`tunit`, `field`. -/
structure UniformData where
  name : String
  srcs : List String
  getData : String → List Int
  dt : ℚ
  unit : Option String
  tunit : Option String
  field : String

/-- A uniform Stored Array: 2-D data (row per source) plus its HDF5
attributes `tstart`, `dt`, `field`, `unit`, `timeunit`, and the column
growth bound (`maxshape` axis 1). -/
structure UniformDataset where
  rows : List (List Int)
  tstart : ℚ
  dt : ℚ
  field : String
  unit : String
  timeunit : String
  maxcol : Option Nat
  deriving DecidableEq, Repr

/-- The `/data/uniform` group: population groups holding named datasets. -/
abbrev UniformStore := List (String × List (String × UniformDataset))

/-- `data.shape[1]` of `np.vstack(ordered_data)`. -/
def vstackCols (rows : List (List Int)) : Nat := (rows.headD []).length

/-- Column-append of a batch onto an existing uniform dataset:
`dataset.resize(oldcolcount + data.shape[1], axis=1)` followed by the slice
write `dataset[:, oldcolcount:] = data` (lines 495-497).  The resize raises
h5py's beyond-`maxshape` `ValueError` — leaving the dataset unchanged —
when the dataset was created with `fixed=True` (column bound `maxcol` set
to the creating batch's width, lines 506-513) and the new column count
exceeds that bound. -/
def appendColsU (ds : UniformDataset) (newRows : List (List Int)) :
    Except NsdfError UniformDataset :=
  match ds.maxcol with
  | some m =>
      if vstackCols ds.rows + vstackCols newRows ≤ m then
        .ok { ds with rows := List.zipWith (fun a b => a ++ b) ds.rows newRows }
      else .error .GrowthBound
  | none => .ok { ds with rows := List.zipWith (fun a b => a ++ b) ds.rows newRows }

/-- `NSDFWriter.add_uniform_data` (lines 456-522).  `sdsName` is the
population name taken from the mapping dataset's path, `srcs` its stored
source ids.  Returns the resulting `/data/uniform` store (the
`require_group` happens before validation, as in the source) together with
the result or raised error. -/
def add_uniform_data (st : UniformStore) (sdsName : String) (srcs : List String)
    (dob : UniformData) (tstart : ℚ) (fixed : Bool) :
    UniformStore × Except NsdfError UniformDataset :=
  let popname := sdsName
  let st1 := requireA popname [] st
  if match_datasets srcs dob.srcs then
    let ordered := srcs.map dob.getData
    match lookup2 st1 popname dob.name with
    | some dataset =>
        match appendColsU dataset ordered with
        | .ok ds1 => (update2 st1 popname dob.name ds1, .ok ds1)
        | .error e => (st1, .error e)
    | none =>
        if dob.dt ≤ 0 then (st1, .error .MissingMetadata)
        else
          match dob.unit with
          | none => (st1, .error .MissingMetadata)
          | some u =>
            match dob.tunit with
            | none => (st1, .error .MissingMetadata)
            | some tu =>
              let ds1 : UniformDataset :=
                { rows := ordered, tstart := tstart, dt := dob.dt,
                  field := dob.field, unit := u, timeunit := tu,
                  maxcol := if fixed then some (vstackCols ordered) else none }
              (update2 st1 popname dob.name ds1, .ok ds1)
  else (st1, .error .SourceMismatch)

/-! ## Event VLEN dialect (`add_event_vlen`, lines 960-1023) -/

/-- The `nsdf.EventData` batch object as consumed by `add_event_vlen`. -/
structure EventData where
  name : String
  srcs : List String
  getData : String → List Int
  unit : Option String
  field : String

/-- A ragged (VLEN) Stored Array: one independently sized row per source,
with `field`/`unit` attributes and the row growth bound. -/
structure VlenDataset where
  rows : List (List Int)
  field : String
  unit : String
  maxrows : Option Nat
  deriving DecidableEq, Repr

/-- The `/data/event` group for the VLEN dialect. -/
abbrev VlenStore := List (String × List (String × VlenDataset))

/-- The per-row append loop of the VLEN dialect
(`dataset[iii] = np.concatenate((dataset[iii], data))`): shared by
`add_nonuniform_vlen` (lines 792-796, also applied to the time rows) and
`add_event_vlen` (lines 1020-1023). -/
def add_vlen_append (dataset newData : List (List Int)) : List (List Int) :=
  List.zipWith (fun a b => a ++ b) dataset newData

/-- `NSDFWriter.add_event_vlen` (lines 960-1023).  On the creation path the
dataset is created with one empty row per source and the same append loop
then writes the first batch. -/
def add_event_vlen (st : VlenStore) (sdsName : String) (srcs : List String)
    (dob : EventData) (fixed : Bool) :
    VlenStore × Except NsdfError VlenDataset :=
  let popname := sdsName
  let st1 := requireA popname [] st
  if match_datasets srcs dob.srcs then
    let newData := srcs.map dob.getData
    match lookup2 st1 popname dob.name with
    | some dataset =>
        let ds1 := { dataset with rows := add_vlen_append dataset.rows newData }
        (update2 st1 popname dob.name ds1, .ok ds1)
    | none =>
        match dob.unit with
        | none => (st1, .error .MissingMetadata)
        | some u =>
          let ds0 : VlenDataset :=
            { rows := List.replicate srcs.length [], field := dob.field, unit := u,
              maxrows := if fixed then some srcs.length else none }
          let ds1 := { ds0 with rows := add_vlen_append ds0.rows newData }
          (update2 st1 popname dob.name ds1, .ok ds1)
  else (st1, .error .SourceMismatch)

/-! ## Regular shared-time dialect (`add_nonuniform_regular`, lines 524-598) -/

/-- The `nsdf.NonuniformRegularData` batch object: per-source data plus one
explicit shared time vector (`get_times()`). -/
structure NonuniformRegularData where
  name : String
  srcs : List String
  getData : String → List Int
  times : List ℚ
  unit : Option String
  tunit : Option String
  field : String

/-- A regular shared-time Stored Array with its attributes. -/
structure RegDataset where
  rows : List (List Int)
  field : String
  unit : String
  maxcol : Option Nat
  deriving DecidableEq, Repr

/-- A time-axis dataset under `/map/time` with its `unit` attribute.  It is
created without a `maxshape`, so it cannot grow. -/
structure TimeDS where
  times : List ℚ
  unit : String
  deriving DecidableEq, Repr

/-- The state touched by `add_nonuniform_regular`: the `/data/nonuniform`
group and the `/map/time` group. -/
structure NURegStore where
  dataGroups : List (String × List (String × RegDataset))
  timeDim : List (String × TimeDS)
  deriving Repr

/-- `NSDFWriter.add_nonuniform_regular` (lines 524-598).  Note that on the
append branch (lines 564-568) only the data dataset is resized and written;
the time dataset under `/map/time` is not touched. -/
def add_nonuniform_regular (st : NURegStore) (sdsName : String) (srcs : List String)
    (dob : NonuniformRegularData) (fixed : Bool) :
    NURegStore × Except NsdfError RegDataset :=
  let popname := sdsName
  let st1 : NURegStore := { st with dataGroups := requireA popname [] st.dataGroups }
  if match_datasets srcs dob.srcs then
    let ordered := srcs.map dob.getData
    if vstackCols ordered = dob.times.length then
      match lookup2 st1.dataGroups popname dob.name with
      | some dataset =>
          let ds1 := { dataset with
                       rows := List.zipWith (fun a b => a ++ b) dataset.rows ordered }
          ({ st1 with dataGroups := update2 st1.dataGroups popname dob.name ds1 },
           .ok ds1)
      | none =>
          match dob.unit with
          | none => (st1, .error .MissingMetadata)
          | some u =>
            match dob.tunit with
            | none => (st1, .error .MissingMetadata)
            | some tu =>
              let ds1 : RegDataset :=
                { rows := ordered, field := dob.field, unit := u,
                  maxcol := if fixed then some (vstackCols ordered) else none }
              let dg := update2 st1.dataGroups popname dob.name ds1
              let tsname := popname ++ "_" ++ dob.name
              match lookupA tsname st1.timeDim with
              | some _ => ({ st1 with dataGroups := dg }, .error .Conflict)
              | none =>
                  ({ dataGroups := dg,
                     timeDim := setA tsname { times := dob.times, unit := tu }
                                  st1.timeDim },
                   .ok ds1)
    else (st1, .error .ShapeMismatch)
  else (st1, .error .SourceMismatch)

/-! ## NaN-padded dialect (append path of `add_nonuniform_nan`, lines
836-884, and `add_event_nan`, lines 1051-1083) -/

/-- One cell of a NaN-padded array; `none` encodes the NaN sentinel. -/
abbrev Cell := Option Int

/-- Modelled from the spec: `next(find(dataset[iii], np.isnan))[0][0]` uses
`find` from the util module, which is not under `src/`; per the spec the
start offset is "the index of the first sentinel cell in that row (row fully
original data if no sentinel found)", i.e. the row length when no sentinel
is present — which also matches the `StopIteration` branch of the source. -/
def firstNan (row : List Cell) : Nat := row.findIdx fun c => c.isNone

/-- `dataset.resize(w, 1)` applied to one row: h5py truncates on shrink and
fills grown cells with the `fillvalue` (NaN). -/
def resizeRow (w : Nat) (row : List Cell) : List Cell :=
  row.take w ++ List.replicate (w - row.length) none

/-- `dataset[iii, s:s+len(d)] = d`: overwrite the slice starting at `s`. -/
def writeSlice (row : List Cell) (s : Nat) (d : List Cell) : List Cell :=
  row.take s ++ d ++ row.drop (s + d.length)

/-- The `ends` array: per row, first-sentinel index plus the row's new
sample count (`ends[iii] = starts[iii] + cols[iii]`). -/
def nanEnds (dataset newData : List (List Cell)) : List Nat :=
  List.zipWith (fun row d => firstNan row + d.length) dataset newData

/-- `max(ends)`, the width the array is resized to. -/
def nanWidth (dataset newData : List (List Cell)) : Nat :=
  (nanEnds dataset newData).foldr max 0

/-- The append path of the NaN-padded dialect on an existing Stored Array:
compute `starts` from the current rows, `dataset.resize(max(ends), 1)`,
then write each row's new data at its start offset.  This embeds
`add_nonuniform_nan` lines 841-850 and 880-883 (data array; the time array
receives the same treatment with the same `starts`) and `add_event_nan`
lines 1056-1063 and 1080-1082. -/
def add_nan_append (dataset newData : List (List Cell)) : List (List Cell) :=
  List.zipWith
    (fun row d => writeSlice (resizeRow (nanWidth dataset newData) row) (firstNan row) d)
    dataset newData

/-! ## Cross-reference linker (`_link_map_model`, lines 199-244) and source
mapping declaration (`add_uniform_ds`, lines 278-305; `add_static_ds`,
lines 430-454) -/

/-- An opaque HDF5 object reference. -/
abbrev Ref := Nat

/-- A source-mapping dataset handle: its own reference and its HDF5
attributes that hold reference lists (`model`, and whatever else). -/
structure MapDS where
  ref : Ref
  attrs : List (String × List Ref)
  deriving DecidableEq, Repr

/-- A model-tree node: its reference and its reference-list attributes
(`map`, and whatever else). -/
structure TreeNode where
  ref : Ref
  attrs : List (String × List Ref)
  deriving DecidableEq, Repr

/-- The state consulted by the linker: the id→path dictionary rebuilt from
the model tree (paths as component lists, the first component being
`modeltree`) and the tree's existing nodes addressed by their path relative
to `/model/modeltree`. -/
structure LinkEnv where
  idPathDict : List (String × List String)
  tree : List (List String × TreeNode)
  deriving DecidableEq, Repr

/-- `attrs.get(k, [])`. -/
def attrGet (attrs : List (String × List Ref)) (k : String) : List Ref :=
  (lookupA k attrs).getD []

/-- Longest common prefix of two component paths. -/
def lcp2 : List String → List String → List String
  | a :: as, b :: bs => if a = b then a :: lcp2 as bs else []
  | _, _ => []

/-- Modelled from the spec: `common_prefix` lives in the model module,
which is not under `src/`; per the spec it computes "the longest common
path prefix across all resolved paths — the closest common ancestor node".
Paths are modelled as component lists, so stripping the leading
`/modeltree/` of the source becomes dropping the first component. -/
def lcp : List (List String) → List String
  | [] => []
  | p :: ps => ps.foldl lcp2 p

/-- `NSDFWriter._link_map_model` (lines 199-244).  Returns `none` for the
uncaught `KeyError` of an unresolvable uid in the dictionary lookup (line
229); the `KeyError` of a missing ancestor node is caught and only printed
(lines 243-244), leaving everything unchanged.  Note line 238 of the
source: the reference list appended to for the mapping's `model` attribute
is read from the mapping's `map` attribute. -/
def link_map_model (env : LinkEnv) (idlist : List String) (mapds : MapDS) :
    Option (LinkEnv × MapDS) :=
  if 1 < env.idPathDict.length then
    match idlist.mapM (fun uid => lookupA uid env.idPathDict) with
    | none => none
    | some paths =>
      let anc := (lcp paths).drop 1
      match lookupA anc env.tree with
      | some node =>
          let node1 : TreeNode :=
            { node with attrs := setA "map" (attrGet node.attrs "map" ++ [mapds.ref])
                                   node.attrs }
          let mapds1 : MapDS :=
            { mapds with attrs := setA "model" (attrGet mapds.attrs "map" ++ [node.ref])
                                    mapds.attrs }
          some ({ env with tree := setA anc node1 env.tree }, mapds1)
      | none => some (env, mapds)
  else some (env, mapds)

/-- `NSDFWriter.add_uniform_ds` (lines 278-305): empty-input check, then
`create_dataset` (which fails when the population name already exists in
the namespace group), then `_link_map_model` on the fresh mapping dataset.
`add_static_ds` (lines 430-454) follows the same algorithm on the
`/map/static` group.  `m` is the namespace group mapping population name to
stored id list; `r` is the reference of the dataset being created. -/
def add_uniform_ds_full (m : List (String × List String)) (env : LinkEnv)
    (name : String) (idlist : List String) (r : Ref) :
    Except NsdfError (List (String × List String) × LinkEnv × MapDS) :=
  if idlist.length = 0 then .error .EmptyInput
  else
    match lookupA name m with
    | some _ => .error .Conflict
    | none =>
      let mapds : MapDS := { ref := r, attrs := [] }
      match link_map_model env idlist mapds with
      | none => .error .KeyNotFound
      | some (env1, mapds1) => .ok (setA name idlist m, env1, mapds1)

/-! ## Concrete fixtures used in counterexamples and witnesses -/

/-- A uniform batch whose single source id differs from a mapping over `a`. -/
def uBatchB : UniformData :=
  { name := "x", srcs := ["b"], getData := fun _ => [1], dt := 1,
    unit := some "mV", tunit := some "ms", field := "x" }

/-- A uniform batch with no unit. -/
def uBatchNoMeta : UniformData :=
  { name := "x", srcs := ["a"], getData := fun _ => [1], dt := 1,
    unit := none, tunit := some "ms", field := "x" }

/-- A uniform batch listing source `a` twice. -/
def uBatchDup : UniformData :=
  { name := "x", srcs := ["a", "b", "a"], getData := fun _ => [1], dt := 1,
    unit := some "mV", tunit := some "ms", field := "x" }

/-- A uniform batch with every piece of metadata missing or invalid. -/
def uBatchAppend : UniformData :=
  { name := "x", srcs := ["a"], getData := fun _ => [2], dt := 0,
    unit := none, tunit := none, field := "x" }

/-- An existing uniform dataset for source `a`, created with `fixed=False`
(unbounded column growth). -/
def uDs0 : UniformDataset :=
  { rows := [[1]], tstart := 0, dt := 1, field := "x", unit := "mV",
    timeunit := "ms", maxcol := none }

/-- An existing uniform dataset for source `a` as left by a `fixed=True`
first write of one column: column growth capped at width 1. -/
def uDsFixed : UniformDataset :=
  { rows := [[1]], tstart := 0, dt := 1, field := "x", unit := "mV",
    timeunit := "ms", maxcol := some 1 }

/-- An event batch whose single source id differs from a mapping over `a`. -/
def eBatchB : EventData :=
  { name := "x", srcs := ["b"], getData := fun _ => [1], unit := some "mV",
    field := "x" }

/-- An event batch with no unit. -/
def eBatchAppend : EventData :=
  { name := "x", srcs := ["a"], getData := fun _ => [2], unit := none, field := "x" }

/-- An existing VLEN dataset for source `a`. -/
def eDs0 : VlenDataset := { rows := [[1]], field := "x", unit := "mV", maxrows := none }

/-- A regular shared-time batch with no time unit. -/
def rBatchNoMeta : NonuniformRegularData :=
  { name := "x", srcs := ["a"], getData := fun _ => [1, 2], times := [0, 1],
    unit := some "mV", tunit := none, field := "x" }

/-- First regular shared-time batch: two samples at times 0 and 1. -/
def rBatch1 : NonuniformRegularData :=
  { name := "x", srcs := ["a"], getData := fun _ => [1, 2], times := [0, 1],
    unit := some "mV", tunit := some "ms", field := "x" }

/-- Second regular shared-time batch: two more samples at times 2 and 3. -/
def rBatch2 : NonuniformRegularData :=
  { name := "x", srcs := ["a"], getData := fun _ => [3, 4], times := [2, 3],
    unit := some "mV", tunit := some "ms", field := "x" }

/-- Creation call of the regular shared-time scenario. -/
def regRun1 : NURegStore × Except NsdfError RegDataset :=
  add_nonuniform_regular { dataGroups := [], timeDim := [] } "pop" ["a"] rBatch1 false

/-- Append call of the regular shared-time scenario. -/
def regRun2 : NURegStore × Except NsdfError RegDataset :=
  add_nonuniform_regular regRun1.1 "pop" ["a"] rBatch2 false

/-- A model tree with nodes at `/A`, `/A/B`, `/A/B/C` and two sources under
`/A/B`. -/
def linkEnvAB : LinkEnv :=
  { idPathDict := [("root", ["modeltree"]),
                   ("c0", ["modeltree", "A", "B", "c0"]),
                   ("c1", ["modeltree", "A", "B", "c1"])],
    tree := [(["A"], { ref := 10, attrs := [] }),
             (["A", "B"], { ref := 11, attrs := [] }),
             (["A", "B", "C"], { ref := 12, attrs := [] })] }

/-- A mapping dataset that already carries one reference in its `model`
attribute list. -/
def mapdsLinked : MapDS := { ref := 99, attrs := [("model", [7])] }

/-- An environment whose source resolves but whose ancestor node does not
exist in the tree. -/
def linkEnvMissing : LinkEnv :=
  { idPathDict := [("root", ["modeltree"]), ("c0", ["modeltree", "A", "c0"])],
    tree := [] }

/-- An environment in which linking is a no-op (dictionary holds at most
the root). -/
def envEmpty : LinkEnv := { idPathDict := [], tree := [] }

/-- A padded one-row array of width 3 holding one real value. -/
def nanRow0 : List (List Cell) := [[some 1, none, none]]

/-- One new sample for the single row of `nanRow0`. -/
def nanNew0 : List (List Cell) := [[some 7]]

/-- A padded two-row array: one row with one real value and two sentinel
cells, one completely full row. -/
def nanRows1 : List (List Cell) := [[some 1, none, none], [some 1, some 2, some 3]]

/-- One new sample per row of `nanRows1`. -/
def nanNew1 : List (List Cell) := [[some 5], [some 6]]

/-- Two successive event batches for a two-source population. -/
def vlenBatches : List (List (List Int)) := [[[1], [10]], [[2, 3], [20]]]

/-! ## Helper lemmas about the store primitives -/

/-- Looking up the key just set returns the new value. -/
theorem lookupA_setA_self {κ β : Type} [DecidableEq κ] (k : κ) (v : β) :
    ∀ l : List (κ × β), lookupA k (setA k v l) = some v := by
  intro l
  induction l with
  | nil => simp [setA, lookupA]
  | cons h rest ih =>
      by_cases hk : h.1 = k
      · simp [setA, hk, lookupA]
      · simp [setA, hk, lookupA, ih]

/-- Looking up a different key is unaffected by `setA`. -/
theorem lookupA_setA_ne {κ β : Type} [DecidableEq κ] {k k' : κ} (v : β)
    (h : k' ≠ k) : ∀ l : List (κ × β), lookupA k' (setA k v l) = lookupA k' l := by
  have h2 : ¬(k = k') := fun hh => h hh.symm
  intro l
  induction l with
  | nil => simp [setA, lookupA, h2]
  | cons hd rest ih =>
      by_cases hk : hd.1 = k
      · simp [setA, hk, lookupA, ih, h2]
      · simp [setA, hk, lookupA, ih]

/-- `require_group` of an empty group changes no dataset lookup. -/
theorem lookup2_requireA {β : Type} (st : List (String × List (String × β)))
    (pop p q : String) : lookup2 (requireA pop [] st) p q = lookup2 st p q := by
  unfold requireA
  cases hl : lookupA pop st with
  | some g => rfl
  | none =>
      unfold lookup2
      by_cases hp : p = pop
      · subst hp
        rw [lookupA_setA_self, hl]
        simp [lookupA]
      · rw [lookupA_setA_ne _ hp]

/-- Looking up the dataset just written returns the new value. -/
theorem lookup2_update2_self {β : Type} (st : List (String × List (String × β)))
    (pop ds : String) (v : β) : lookup2 (update2 st pop ds v) pop ds = some v := by
  unfold lookup2 update2
  rw [lookupA_setA_self]
  exact lookupA_setA_self ds v _

/-- The only error of the column append is the beyond-`maxshape` resize
failure. -/
theorem appendColsU_error_eq (ds : UniformDataset) (nd : List (List Int))
    (e : NsdfError) (h : appendColsU ds nd = .error e) : e = .GrowthBound := by
  unfold appendColsU at h
  split at h
  · split at h
    · cases h
    · exact (Except.error.inj h).symm
  · cases h

/-- A successful column append only changes the data rows. -/
theorem appendColsU_ok_eq (ds : UniformDataset) (nd : List (List Int))
    (ds1 : UniformDataset) (h : appendColsU ds nd = .ok ds1) :
    ds1 = { ds with rows := List.zipWith (fun a b => a ++ b) ds.rows nd } := by
  unfold appendColsU at h
  split at h
  · split at h
    · exact (Except.ok.inj h).symm
    · cases h
  · exact (Except.ok.inj h).symm

/-- `getD` distributes over `zipWith` at an in-bounds index. -/
theorem getD_zipWith {α β γ : Type} (f : α → β → γ) (da : α) (db : β) (dc : γ) :
    ∀ (a : List α) (b : List β) (i : Nat), i < a.length → i < b.length →
      (List.zipWith f a b).getD i dc = f (a.getD i da) (b.getD i db) := by
  intro a
  induction a with
  | nil => intro b i h _; simp at h
  | cons x xs ih =>
      intro b i
      cases b with
      | nil => intro _ h; simp at h
      | cons y ys =>
          cases i with
          | zero => intro _ _; rfl
          | succ k =>
              intro ha hb
              simp only [List.zipWith_cons_cons, List.getD_cons_succ]
              exact ih ys k (by simpa using ha) (by simpa using hb)

/-- An in-bounds `getD` value is a member of the list. -/
theorem getD_mem_of_lt {α : Type} (d : α) :
    ∀ (l : List α) (i : Nat), i < l.length → l.getD i d ∈ l := by
  intro l
  induction l with
  | nil => intro i h; simp at h
  | cons a as ih =>
      intro i h
      cases i with
      | zero => simp [List.getD]
      | succ j =>
          simp only [List.getD_cons_succ]
          exact List.mem_cons_of_mem _ (ih j (by simpa using h))

/-- Every member is bounded by the `foldr max` of the list. -/
theorem le_foldr_max : ∀ (l : List Nat) (x : Nat), x ∈ l → x ≤ l.foldr max 0 := by
  intro l
  induction l with
  | nil => intro x h; simp at h
  | cons a as ih =>
      intro x h
      rcases List.mem_cons.mp h with h | h
      · subst h; exact le_max_left _ _
      · exact le_trans (ih x h) (le_max_right _ _)

/-- `findIdx` never exceeds the length. -/
theorem findIdx_le_len {α : Type} (p : α → Bool) : ∀ l : List α, l.findIdx p ≤ l.length := by
  intro l
  induction l with
  | nil => simp
  | cons a as ih =>
      cases hpa : p a
      · simp only [List.findIdx_cons, hpa, cond_false, List.length_cons]
        omega
      · simp [List.findIdx_cons, hpa]

/-- Dropping from a replicated list keeps it replicated. -/
theorem drop_replicate_eq {α : Type} (a : α) :
    ∀ (n i : Nat), (List.replicate n a).drop i = List.replicate (n - i) a := by
  intro n
  induction n with
  | zero => intro i; simp
  | succ m ih =>
      intro i
      cases i with
      | zero => simp
      | succ j => simp [List.replicate_succ, ih]

/-- `getD` on a replicated list with the replicated value as default always
returns that value. -/
theorem getD_replicate_self {α : Type} (a : α) :
    ∀ (n i : Nat), (List.replicate n a).getD i a = a := by
  intro n
  induction n with
  | zero =>
      intro i
      cases i <;> rfl
  | succ m ih =>
      intro i
      cases i with
      | zero => rfl
      | succ j =>
          simp only [List.replicate_succ, List.getD_cons_succ]
          exact ih j

/-- A NaN-padded row resized to width `w` is its data part followed by
sentinel padding up to `w` (h5py truncates trailing padding on shrink and
pads with the fill value on growth). -/
theorem resizeRow_padded (row : List Cell) (w : Nat)
    (hpad : row.drop (firstNan row) = List.replicate (row.length - firstNan row) none)
    (hw : firstNan row ≤ w) :
    resizeRow w row =
      row.take (firstNan row) ++ List.replicate (w - firstNan row) none := by
  have hs : firstNan row ≤ row.length := findIdx_le_len _ row
  have hL : (row.take (firstNan row)).length = firstNan row := by
    rw [List.length_take]; omega
  have h1 : row.take w = row.take (firstNan row) ++
      List.replicate (min (w - firstNan row) (row.length - firstNan row)) (none : Cell) := by
    conv_lhs => rw [← List.take_append_drop (firstNan row) row]
    rw [hpad, List.take_append_eq_append_take, List.take_take, hL, List.take_replicate,
        Nat.min_eq_right hw]
  unfold resizeRow
  rw [h1, List.append_assoc, ← List.replicate_add]
  have h2 : min (w - firstNan row) (row.length - firstNan row) + (w - row.length) =
      w - firstNan row := by omega
  rw [h2]

/-- Writing new data at the first-sentinel offset of a resized padded row
keeps the original data, appends the new data, and leaves the tail
sentinel-filled. -/
theorem writeSlice_padded (row d : List Cell) (w : Nat)
    (hpad : row.drop (firstNan row) = List.replicate (row.length - firstNan row) none)
    (hw : firstNan row + d.length ≤ w) :
    writeSlice (resizeRow w row) (firstNan row) d =
      row.take (firstNan row) ++ d ++
        List.replicate (w - (firstNan row + d.length)) (none : Cell) := by
  have hs : firstNan row ≤ row.length := findIdx_le_len _ row
  have hL : (row.take (firstNan row)).length = firstNan row := by
    rw [List.length_take]; omega
  rw [resizeRow_padded row w hpad (by omega)]
  unfold writeSlice
  rw [List.take_left' hL]
  have h3 : (row.take (firstNan row) ++ List.replicate (w - firstNan row) (none : Cell)).drop
      (firstNan row + d.length) = List.replicate (w - (firstNan row + d.length)) (none : Cell) := by
    rw [List.drop_append_eq_append_drop, hL, drop_replicate_eq,
        List.drop_eq_nil_of_le (by omega)]
    have h4 : w - firstNan row - (firstNan row + d.length - firstNan row) =
        w - (firstNan row + d.length) := by omega
    rw [h4, List.nil_append]
  rw [h3]

/-! ## Claim theorems -/

/-- C1: if the set of source ids in a batch differs from the set of source
ids in the target Source Mapping dataset, `add_uniform_data` and
`add_event_vlen` fail with `SourceMismatch` (the `KeyError`) and no Stored
Array is created or grown and no attribute is written: every dataset lookup
in the resulting store is unchanged. -/
theorem source_mismatch_no_mutation (stU : UniformStore) (stE : VlenStore)
    (pU pE : String) (srcsU srcsE : List String) (dobU : UniformData)
    (dobE : EventData) (t : ℚ) (fU fE : Bool)
    (hU : match_datasets srcsU dobU.srcs = false)
    (hE : match_datasets srcsE dobE.srcs = false) :
    ((add_uniform_data stU pU srcsU dobU t fU).2 = .error .SourceMismatch ∧
      ∀ p q, lookup2 (add_uniform_data stU pU srcsU dobU t fU).1 p q = lookup2 stU p q) ∧
    ((add_event_vlen stE pE srcsE dobE fE).2 = .error .SourceMismatch ∧
      ∀ p q, lookup2 (add_event_vlen stE pE srcsE dobE fE).1 p q = lookup2 stE p q) := by
  refine ⟨⟨?_, ?_⟩, ?_, ?_⟩
  · simp [add_uniform_data, hU]
  · intro p q
    simp [add_uniform_data, hU, lookup2_requireA]
  · simp [add_event_vlen, hE]
  · intro p q
    simp [add_event_vlen, hE, lookup2_requireA]

/-- C1 witness: a concrete mismatching batch (mapping over `a`, batch over
`b`) makes `add_uniform_data` fail with `SourceMismatch`. -/
theorem source_mismatch_no_mutation_witness :
    (add_uniform_data [] "pop" ["a"] uBatchB 0 false).2 = .error .SourceMismatch :=
  (source_mismatch_no_mutation [] [] "pop" "pop" ["a"] ["a"] uBatchB eBatchB 0
    false false (by decide) (by decide)).1.1

/-- C9: batch-versus-mapping validation is purely set-based:
`match_datasets` passes exactly when the two id sets are equal, so a batch
with duplicated ids passes whenever its id set equals the mapping's, and
`add_uniform_data` never fails with `SourceMismatch` in that case. -/
theorem validation_set_based (ms : List String) (st : UniformStore) (p : String)
    (dob : UniformData) (t : ℚ) (f : Bool)
    (hset : ms.toFinset = dob.srcs.toFinset) :
    match_datasets ms dob.srcs = true ∧
    (add_uniform_data st p ms dob t f).2 ≠ .error .SourceMismatch := by
  have hm : match_datasets ms dob.srcs = true := by
    simp [match_datasets, hset]
  refine ⟨hm, ?_⟩
  simp only [add_uniform_data, hm]
  cases hl : lookup2 (requireA p [] st) p dob.name with
  | some ds =>
      simp only [hl, if_true]
      cases happ : appendColsU ds (ms.map dob.getData) with
      | ok ds1 => simp [happ]
      | error e =>
          have hge := appendColsU_error_eq _ _ _ happ
          subst hge
          simp [happ]
  | none =>
      simp only [hl, if_true]
      by_cases hdt : dob.dt ≤ 0
      · simp [hdt]
      · cases dob.unit with
        | none => simp [hdt]
        | some u =>
            cases dob.tunit with
            | none => simp [hdt]
            | some tu => simp [hdt]

/-- C9 witness: a batch listing `a` twice against a mapping over `a, b`
passes validation and is not rejected with `SourceMismatch`. -/
theorem validation_set_based_witness :
    match_datasets ["a", "b"] uBatchDup.srcs = true ∧
    (add_uniform_data [] "pop" ["a", "b"] uBatchDup 0 false).2 ≠
      .error .SourceMismatch :=
  validation_set_based ["a", "b"] [] "pop" uBatchDup 0 false (by decide)

/-- C5: on the creation path (target dataset not yet present), a missing
unit, a missing time unit, or a non-positive `dt` (for the fixed-step
dialect) makes `add_uniform_data` / `add_nonuniform_regular` fail with
`MissingMetadata`, and afterwards no new array and no new attribute is
visible: every dataset lookup and the time-axis group are unchanged. -/
theorem creation_missing_metadata_fails_clean
    (stU : UniformStore) (stR : NURegStore) (pU pR : String)
    (srcsU srcsR : List String) (dobU : UniformData) (dobR : NonuniformRegularData)
    (t : ℚ) (fU fR : Bool)
    (hmU : match_datasets srcsU dobU.srcs = true)
    (hlookU : lookup2 stU pU dobU.name = none)
    (hmetaU : dobU.dt ≤ 0 ∨ dobU.unit = none ∨ dobU.tunit = none)
    (hmR : match_datasets srcsR dobR.srcs = true)
    (hshapeR : vstackCols (srcsR.map dobR.getData) = dobR.times.length)
    (hlookR : lookup2 stR.dataGroups pR dobR.name = none)
    (hmetaR : dobR.unit = none ∨ dobR.tunit = none) :
    ((add_uniform_data stU pU srcsU dobU t fU).2 = .error .MissingMetadata ∧
      ∀ p q, lookup2 (add_uniform_data stU pU srcsU dobU t fU).1 p q = lookup2 stU p q) ∧
    ((add_nonuniform_regular stR pR srcsR dobR fR).2 = .error .MissingMetadata ∧
      (∀ p q, lookup2 (add_nonuniform_regular stR pR srcsR dobR fR).1.dataGroups p q =
          lookup2 stR.dataGroups p q) ∧
      (add_nonuniform_regular stR pR srcsR dobR fR).1.timeDim = stR.timeDim) := by
  have hl1 : lookup2 (requireA pU [] stU) pU dobU.name = none := by
    rw [lookup2_requireA]; exact hlookU
  have hu : add_uniform_data stU pU srcsU dobU t fU =
      (requireA pU [] stU, .error .MissingMetadata) := by
    simp only [add_uniform_data, hmU, hl1, if_true]
    rcases hmetaU with h | h | h
    · simp [h]
    · by_cases hdt : dobU.dt ≤ 0
      · simp [hdt]
      · simp [hdt, h]
    · by_cases hdt : dobU.dt ≤ 0
      · simp [hdt]
      · cases hun : dobU.unit with
        | none => simp [hdt, hun]
        | some u => simp [hdt, hun, h]
  have hl2 : lookup2 (requireA pR [] stR.dataGroups) pR dobR.name = none := by
    rw [lookup2_requireA]; exact hlookR
  have hr : add_nonuniform_regular stR pR srcsR dobR fR =
      ({ stR with dataGroups := requireA pR [] stR.dataGroups },
       .error .MissingMetadata) := by
    simp only [add_nonuniform_regular, hmR, hshapeR, hl2, if_true]
    rcases hmetaR with h | h
    · simp [h]
    · cases hun : dobR.unit with
      | none => simp [hun]
      | some u => simp [hun, h]
  refine ⟨⟨?_, ?_⟩, ?_, ?_, ?_⟩
  · rw [hu]
  · intro p q
    rw [hu]
    exact lookup2_requireA stU pU p q
  · rw [hr]
  · intro p q
    rw [hr]
    exact lookup2_requireA stR.dataGroups pR p q
  · rw [hr]

/-- C5 witness: creating with a missing unit (uniform) and a missing time
unit (regular shared-time) fails with `MissingMetadata` on empty stores. -/
theorem creation_missing_metadata_fails_clean_witness :
    (add_uniform_data [] "pop" ["a"] uBatchNoMeta 0 false).2 =
      .error .MissingMetadata ∧
    (add_nonuniform_regular { dataGroups := [], timeDim := [] } "pop" ["a"]
        rBatchNoMeta false).2 = .error .MissingMetadata :=
  ⟨(creation_missing_metadata_fails_clean [] { dataGroups := [], timeDim := [] }
      "pop" "pop" ["a"] ["a"] uBatchNoMeta rBatchNoMeta 0 false false
      (by decide) rfl (Or.inr (Or.inl rfl)) (by decide) rfl rfl (Or.inr rfl)).1.1,
   (creation_missing_metadata_fails_clean [] { dataGroups := [], timeDim := [] }
      "pop" "pop" ["a"] ["a"] uBatchNoMeta rBatchNoMeta 0 false false
      (by decide) rfl (Or.inr (Or.inl rfl)) (by decide) rfl rfl (Or.inr rfl)).2.1⟩

/-- C10 counterexample: the target dataset exists (created by a
`fixed=True` first write, so its column growth is capped at 1) and the
batch's unit and time unit are absent with `dt = 0`; the append does not
succeed — the resize beyond the creation-time `maxshape` raises — so the
claim that every append to an already-existing Stored Array succeeds is
false at this input.  The error is the growth-bound resize error, not a
metadata error. -/
theorem append_fixed_cap_not_success :
    lookup2 [("pop", [("x", uDsFixed)])] "pop" uBatchAppend.name = some uDsFixed ∧
    (add_uniform_data [("pop", [("x", uDsFixed)])] "pop" ["a"] uBatchAppend 0
        false).2 = .error .GrowthBound := by
  exact ⟨rfl, rfl⟩

/-- C10 (amended): metadata validation happens only on the creation path:
when the target dataset already exists, `add_uniform_data` never raises a
metadata error (for any batch, including absent unit/time unit or
non-positive `dt`); whenever the resize stays within the creation-time
growth bound (always, for `fixed=False`-created arrays) the append
succeeds and leaves the stored metadata attributes unchanged, and
`add_event_vlen` appends succeed unconditionally with the unit attribute
unchanged. -/
theorem append_no_metadata_checks_growth_bounded
    (stU : UniformStore) (stE : VlenStore) (pU pE : String)
    (srcsU srcsE : List String) (dobU : UniformData) (dobE : EventData)
    (t : ℚ) (fU fE : Bool) (dsU : UniformDataset) (dsE : VlenDataset)
    (hmU : match_datasets srcsU dobU.srcs = true)
    (hlookU : lookup2 stU pU dobU.name = some dsU)
    (hmE : match_datasets srcsE dobE.srcs = true)
    (hlookE : lookup2 stE pE dobE.name = some dsE) :
    ((add_uniform_data stU pU srcsU dobU t fU).2 ≠ .error .MissingMetadata ∧
      ∀ ds1, appendColsU dsU (srcsU.map dobU.getData) = .ok ds1 →
        (add_uniform_data stU pU srcsU dobU t fU).2 = .ok ds1 ∧
        ds1.unit = dsU.unit ∧ ds1.timeunit = dsU.timeunit ∧ ds1.dt = dsU.dt ∧
        ds1.tstart = dsU.tstart ∧
        lookup2 (add_uniform_data stU pU srcsU dobU t fU).1 pU dobU.name =
          some ds1) ∧
    ((add_event_vlen stE pE srcsE dobE fE).2 =
        .ok { dsE with rows := add_vlen_append dsE.rows (srcsE.map dobE.getData) } ∧
      ({ dsE with rows := add_vlen_append dsE.rows (srcsE.map dobE.getData) } :
          VlenDataset).unit = dsE.unit ∧
      lookup2 (add_event_vlen stE pE srcsE dobE fE).1 pE dobE.name =
        some { dsE with
               rows := add_vlen_append dsE.rows (srcsE.map dobE.getData) }) := by
  have hl1 : lookup2 (requireA pU [] stU) pU dobU.name = some dsU := by
    rw [lookup2_requireA]; exact hlookU
  have hl2 : lookup2 (requireA pE [] stE) pE dobE.name = some dsE := by
    rw [lookup2_requireA]; exact hlookE
  have he : add_event_vlen stE pE srcsE dobE fE =
      (update2 (requireA pE [] stE) pE dobE.name
        { dsE with rows := add_vlen_append dsE.rows (srcsE.map dobE.getData) },
       .ok { dsE with rows := add_vlen_append dsE.rows (srcsE.map dobE.getData) }) := by
    simp only [add_event_vlen, hmE, hl2, if_true]
  refine ⟨⟨?_, ?_⟩, ?_, rfl, ?_⟩
  · simp only [add_uniform_data, hmU, hl1, if_true]
    cases happ : appendColsU dsU (srcsU.map dobU.getData) with
    | ok ds1 => simp [happ]
    | error e =>
        have hge := appendColsU_error_eq _ _ _ happ
        subst hge
        simp [happ]
  · intro ds1 happ
    have hu : add_uniform_data stU pU srcsU dobU t fU =
        (update2 (requireA pU [] stU) pU dobU.name ds1, .ok ds1) := by
      simp only [add_uniform_data, hmU, hl1, if_true, happ]
    have hfields := appendColsU_ok_eq _ _ _ happ
    refine ⟨by rw [hu], ?_, ?_, ?_, ?_, ?_⟩
    · rw [hfields]
    · rw [hfields]
    · rw [hfields]
    · rw [hfields]
    · rw [hu]
      exact lookup2_update2_self _ _ _ _
  · rw [he]
  · rw [he]
    exact lookup2_update2_self _ _ _ _

/-- C10 witness: appending a batch with `dt = 0`, no unit and no time unit
to an existing unbounded (`fixed=False`-created) uniform dataset succeeds
with the rows extended. -/
theorem append_no_metadata_checks_growth_bounded_witness :
    (add_uniform_data [("pop", [("x", uDs0)])] "pop" ["a"] uBatchAppend 0 false).2 =
      .ok { uDs0 with
            rows := List.zipWith (fun a b => a ++ b) uDs0.rows
                      (["a"].map uBatchAppend.getData) } :=
  ((append_no_metadata_checks_growth_bounded [("pop", [("x", uDs0)])]
      [("pop", [("x", eDs0)])] "pop" "pop" ["a"] ["a"] uBatchAppend eBatchAppend 0
      false false uDs0 eDs0 (by decide) rfl (by decide) rfl).1.2
    { uDs0 with
      rows := List.zipWith (fun a b => a ++ b) uDs0.rows
                (["a"].map uBatchAppend.getData) } rfl).1

/-- C2 counterexample: on `nanRow0` (width 3, one real value) appending one
sample gives a row of width 2, not `max` of the existing width 3 and the
maximal end offset 2: the resize shrinks the array to `max(ends)`, so the
claimed width formula `max(existing width, max over rows of (start + new
count))` is false at this input. -/
theorem nan_width_claim_counterexample :
    add_nan_append nanRow0 nanNew0 = [[some 1, some 7]] ∧
    ((add_nan_append nanRow0 nanNew0).getD 0 []).length ≠
      max ((nanRow0.getD 0 []).length) (nanWidth nanRow0 nanNew0) := by
  exact ⟨rfl, by decide⟩

/-- C2 (amended): on the NaN-padded append path, each row's write start
offset is the index of its first sentinel cell (its full length when it has
none), and the array's new width is exactly the maximum over rows of
(start offset + new sample count) — possibly smaller than the existing
width — with each resulting row being its original data, then the new data,
then sentinel padding up to the new width. -/
theorem nan_append_start_width_padding (dataset newData : List (List Cell))
    (hlen : newData.length = dataset.length)
    (hpad : ∀ row ∈ dataset,
      row.drop (firstNan row) = List.replicate (row.length - firstNan row) none)
    (i : Nat) (hi : i < dataset.length) :
    (add_nan_append dataset newData).getD i [] =
      (dataset.getD i []).take (firstNan (dataset.getD i [])) ++ newData.getD i [] ++
        List.replicate
          (nanWidth dataset newData -
            (firstNan (dataset.getD i []) + (newData.getD i []).length))
          (none : Cell) ∧
    ((add_nan_append dataset newData).getD i []).length = nanWidth dataset newData := by
  have hib : i < newData.length := by omega
  have hmem : dataset.getD i [] ∈ dataset := getD_mem_of_lt [] dataset i hi
  have hpadi := hpad _ hmem
  have hends : (nanEnds dataset newData).getD i 0 =
      firstNan (dataset.getD i []) + (newData.getD i []).length := by
    unfold nanEnds
    exact getD_zipWith _ [] [] 0 dataset newData i hi hib
  have hendsmem : (nanEnds dataset newData).getD i 0 ∈ nanEnds dataset newData := by
    apply getD_mem_of_lt
    unfold nanEnds
    rw [List.length_zipWith]
    omega
  have hw : firstNan (dataset.getD i []) + (newData.getD i []).length ≤
      nanWidth dataset newData := by
    rw [← hends]
    exact le_foldr_max _ _ hendsmem
  have hrow : (add_nan_append dataset newData).getD i [] =
      writeSlice (resizeRow (nanWidth dataset newData) (dataset.getD i []))
        (firstNan (dataset.getD i [])) (newData.getD i []) := by
    unfold add_nan_append
    exact getD_zipWith _ [] [] [] dataset newData i hi hib
  rw [hrow, writeSlice_padded _ _ _ hpadi hw]
  refine ⟨rfl, ?_⟩
  have hs : firstNan (dataset.getD i []) ≤ (dataset.getD i []).length :=
    findIdx_le_len _ _
  simp only [List.length_append, List.length_replicate, List.length_take]
  omega

/-- C2 witness: on the concrete padded array `nanRows1` with new samples
`nanNew1`, row 0 is its single original value, then the new sample, then
sentinel padding up to the new width. -/
theorem nan_append_start_width_padding_witness :
    (add_nan_append nanRows1 nanNew1).getD 0 [] =
      (nanRows1.getD 0 []).take (firstNan (nanRows1.getD 0 [])) ++ nanNew1.getD 0 [] ++
        List.replicate
          (nanWidth nanRows1 nanNew1 -
            (firstNan (nanRows1.getD 0 []) + (nanNew1.getD 0 []).length))
          (none : Cell) :=
  (nan_append_start_width_padding nanRows1 nanNew1 (by decide) (by decide) 0
    (by decide)).1

/-- C3 (code bug): in the regular shared-time dialect, after a successful
creation call (2 columns, times 0 and 1) and a successful append call (2
more columns), the data Stored Array has 4 columns while the shared
time-axis dataset still has 2 entries — the append branch never grows or
writes the time dataset, so the lock-step invariant claimed by the spec
fails after the second call. -/
theorem nonuniform_regular_time_axis_stale :
    regRun1.2 = .ok { rows := [[1, 2]], field := "x", unit := "mV", maxcol := none } ∧
    regRun2.2 = .ok { rows := [[1, 2, 3, 4]], field := "x", unit := "mV",
                      maxcol := none } ∧
    lookup2 regRun2.1.dataGroups "pop" "x" =
      some { rows := [[1, 2, 3, 4]], field := "x", unit := "mV", maxcol := none } ∧
    lookupA "pop_x" regRun2.1.timeDim = some { times := [0, 1], unit := "ms" } ∧
    vstackCols [[1, 2, 3, 4]] ≠ ([0, 1] : List ℚ).length := by
  exact ⟨rfl, rfl, rfl, rfl, by decide⟩

/-- C4: in the ragged (VLEN) dialect, starting from the freshly created
dataset (one empty row per source), after any sequence of appends the row
of source `i` is exactly the concatenation, in append order, of the chunks
written for that source — no reordering, no truncation. -/
theorem vlen_rows_concat (n : Nat) (batches : List (List (List Int))) (i : Nat)
    (hi : i < n) (hb : ∀ b ∈ batches, b.length = n) :
    (batches.foldl add_vlen_append (List.replicate n [])).getD i [] =
      (batches.map fun b => b.getD i []).flatten := by
  have key : ∀ (bs : List (List (List Int))) (d0 : List (List Int)),
      d0.length = n → (∀ b ∈ bs, b.length = n) →
      (bs.foldl add_vlen_append d0).getD i [] =
        d0.getD i [] ++ (bs.map fun b => b.getD i []).flatten := by
    intro bs
    induction bs with
    | nil =>
        intro d0 _ _
        simp
    | cons b rest ih =>
        intro d0 h0 hall
        have hb0 : b.length = n := hall b (List.mem_cons_self b rest)
        have hlen : (add_vlen_append d0 b).length = n := by
          unfold add_vlen_append
          rw [List.length_zipWith, h0, hb0, Nat.min_self]
        have hstep : (add_vlen_append d0 b).getD i [] =
            d0.getD i [] ++ b.getD i [] := by
          unfold add_vlen_append
          exact getD_zipWith _ [] [] [] d0 b i (by omega) (by omega)
        rw [List.foldl_cons,
            ih (add_vlen_append d0 b) hlen
              (fun x hx => hall x (List.mem_cons_of_mem _ hx)),
            hstep]
        simp [List.append_assoc]
  have h := key batches (List.replicate n []) (by simp) hb
  rw [h, getD_replicate_self]
  simp

/-- C4 witness: for two sources and two successive batches, source 1's row
is the concatenation of its two chunks in append order. -/
theorem vlen_rows_concat_witness :
    (vlenBatches.foldl add_vlen_append (List.replicate 2 [])).getD 1 [] =
      (vlenBatches.map fun b => b.getD 1 []).flatten :=
  vlen_rows_concat 2 vlenBatches 1 (by decide) (by decide)

/-- C6 (code bug): linking a mapping whose sources share ancestor `/A/B`
appends one reference to the node's `map` list and touches no other node,
but the mapping's `model` attribute is overwritten with the single node
reference (the source reads the mapping's `map` attribute instead of its
`model` attribute before appending), dropping the pre-existing entry 7
instead of producing the append-only list `[7, 11]`. -/
theorem link_map_model_drops_model_refs :
    link_map_model linkEnvAB ["c0", "c1"] mapdsLinked =
      some ({ idPathDict := linkEnvAB.idPathDict,
              tree := [(["A"], { ref := 10, attrs := [] }),
                       (["A", "B"], { ref := 11, attrs := [("map", [99])] }),
                       (["A", "B", "C"], { ref := 12, attrs := [] })] },
            { ref := 99, attrs := [("model", [11])] }) ∧
    attrGet mapdsLinked.attrs "model" ++ [11] ≠
      attrGet ({ ref := 99, attrs := [("model", [11])] } : MapDS).attrs "model" := by
  exact ⟨rfl, by decide⟩

/-- C7 counterexample: declaring population `cells` with the same source
list `[a]` a second time fails with `Conflict` (h5py's `create_dataset`
rejects any existing name), refuting the claim that a re-declaration with
an identical source set is permitted. -/
theorem redeclare_same_set_rejected :
    add_uniform_ds_full [] envEmpty "cells" ["a"] 1 =
      .ok ([("cells", ["a"])], envEmpty, { ref := 1, attrs := [] }) ∧
    add_uniform_ds_full [("cells", ["a"])] envEmpty "cells" ["a"] 2 =
      .error .Conflict := by
  exact ⟨rfl, rfl⟩

/-- C7 (amended): declaring a Source Mapping a second time for the same
(dialect namespace, population name) fails with a `Conflict` error
regardless of whether the new source set equals or differs from the stored
one. -/
theorem redeclare_always_conflict (m : List (String × List String)) (env : LinkEnv)
    (nm : String) (idlist prev : List String) (r : Ref)
    (hprev : lookupA nm m = some prev) (hne : idlist.length ≠ 0) :
    add_uniform_ds_full m env nm idlist r = .error .Conflict := by
  unfold add_uniform_ds_full
  rw [if_neg hne, hprev]

/-- C7 witness: re-declaring `cells` with a different source list `[b]`
also fails with `Conflict`. -/
theorem redeclare_always_conflict_witness :
    add_uniform_ds_full [("cells", ["a"])] envEmpty "cells" ["b"] 2 =
      .error .Conflict :=
  redeclare_always_conflict [("cells", ["a"])] envEmpty "cells" ["b"] ["a"] 2 rfl
    (by decide)

/-- C8: when the computed closest-common-ancestor path has no existing node
in the model tree, the linker does not raise: the `KeyError` is caught and
only printed, the link is skipped leaving the environment unchanged, and
the declare operation still completes, returning its fresh mapping
handle. -/
theorem missing_ancestor_link_skipped (m : List (String × List String))
    (env : LinkEnv) (nm : String) (idlist : List String) (r : Ref)
    (paths : List (List String))
    (hne : idlist.length ≠ 0) (hnew : lookupA nm m = none)
    (hdict : 1 < env.idPathDict.length)
    (hres : idlist.mapM (fun uid => lookupA uid env.idPathDict) = some paths)
    (hanc : lookupA ((lcp paths).drop 1) env.tree = none) :
    add_uniform_ds_full m env nm idlist r =
      .ok (setA nm idlist m, env, { ref := r, attrs := [] }) := by
  simp only [add_uniform_ds_full, link_map_model, hne, hnew, hdict, hres, hanc,
    if_true, if_false]

/-- C8 witness: the source resolves to `/A/c0` but the tree has no node
there; declaring still succeeds and returns the mapping handle. -/
theorem missing_ancestor_link_skipped_witness :
    add_uniform_ds_full [] linkEnvMissing "cells" ["c0"] 1 =
      .ok (setA "cells" ["c0"] [], linkEnvMissing, { ref := 1, attrs := [] }) :=
  missing_ancestor_link_skipped [] linkEnvMissing "cells" ["c0"] 1
    [["modeltree", "A", "c0"]] (by decide) rfl (by decide) rfl rfl

end Nsdf
